import Mathlib

/-!
Shallow embedding of the watermark placement-and-compositing engine of
`watermark_gui.py` (class `WatermarkApp`), together with theorems checking
the natural-language specification against it.

Conventions of the embedding:
* Python integer floor division `//` is `Int` division `/` (Euclidean
  division, which agrees with floor division for the positive divisors
  used by the code).
* Python `int(...)` applied to an exact quotient (truncation toward zero)
  is `pyIntDiv`.
* Python float arithmetic is modelled exactly over `ℚ` (all quantities the
  code computes are rationals with small denominators).
* The mutable `self.watermark_settings` / `self.output_settings` dicts are
  immutable records snapshotted at render time; `position` is the raw
  string the dict holds (the nine Chinese anchor names, or "manual").
* Drawing calls (`draw.text`, `layer.paste`) are recorded as explicit
  operation values in call order instead of mutating a pixel buffer;
  pixel-level compositing (`Image.alpha_composite`, masked `paste`) is
  modelled per pixel over `ℚ` by the standard source-over formulas the
  PIL collaborators implement.
-/

/-- Truncation-toward-zero division: the value of Python `int(a / b)` for
integers `a` and positive `b` (Python `/` is exact here, `int` truncates). -/
def pyIntDiv (a b : ℤ) : ℤ := if 0 ≤ a then a / b else -((-a) / b)

/-- Clamp `v` into `[lo, hi]`, written the way the source writes it:
`max lo (min v hi)`. -/
def clampI (v lo hi : ℤ) : ℤ := max lo (min v hi)

/-- Cast a pair of integers to a pair of rationals (coordinate-frame
comparison helper). -/
def i2 (p : ℤ × ℤ) : ℚ × ℚ := ((p.1 : ℚ), (p.2 : ℚ))

/-- Snapshot of `self.watermark_settings` (the fields the rendering engine
reads; font selection is an external collaborator and is represented only
by the measured text bounding box passed to the renderer). -/
structure WatermarkSettings where
  text : String
  font_color : ℤ × ℤ × ℤ
  opacity : ℤ
  position : String
  rotation : ℤ
  shadow_enabled : Bool
  stroke_enabled : Bool
  image_watermark_path : Option String
  image_watermark_scale : ℤ
  image_watermark_opacity : ℤ
  manual_x : Option ℤ
  manual_y : Option ℤ
deriving DecidableEq

/-- Snapshot of the `self.output_settings` fields used by filename
generation: `naming_rule`, `prefix`, `suffix`, `format` (the Lean field
names `preStr`/`sufStr` stand for the dict keys holding the prefix and
suffix strings). -/
structure OutputSettings where
  naming_rule : String
  preStr : String
  sufStr : String
  format : String
deriving DecidableEq

/-- `WatermarkApp.calculate_actual_position(width, height, text_width,
text_height)`: the export-path position resolver, selecting on
`watermark_settings['position']`; any unrecognized position string falls
through to the bottom-right branch. -/
def calculate_actual_position (position : String)
    (width height text_width text_height : ℤ) : ℤ × ℤ :=
  let margin : ℤ := 20
  if position = "左上角" then (margin, margin)
  else if position = "上中" then ((width - text_width) / 2, margin)
  else if position = "右上角" then (width - text_width - margin, margin)
  else if position = "左中" then (margin, (height - text_height) / 2)
  else if position = "居中" then
    ((width - text_width) / 2, (height - text_height) / 2)
  else if position = "右中" then
    (width - text_width - margin, (height - text_height) / 2)
  else if position = "左下角" then (margin, height - text_height - margin)
  else if position = "下中" then
    ((width - text_width) / 2, height - text_height - margin)
  else (width - text_width - margin, height - text_height - margin)

/-- The anchor-selection part of `WatermarkApp.calculate_watermark_position
(width, height, scale)` (the preview-path resolver), before the canvas
letterbox offset it adds at the end.  Python float `//` is `Int.floor` of
the exact quotient.  Note it takes no content size. -/
def calculate_watermark_position_core (position : String)
    (width height : ℕ) (scale : ℚ) : ℚ × ℚ :=
  let margin : ℚ := 20 * scale
  if position = "左上角" then (margin, margin)
  else if position = "上中" then ((⌊(width : ℚ) * scale / 2⌋ : ℤ), margin)
  else if position = "右上角" then ((width : ℚ) * scale - margin, margin)
  else if position = "左中" then (margin, (⌊(height : ℚ) * scale / 2⌋ : ℤ))
  else if position = "居中" then
    (((⌊(width : ℚ) * scale / 2⌋ : ℤ) : ℚ), ((⌊(height : ℚ) * scale / 2⌋ : ℤ) : ℚ))
  else if position = "右中" then
    ((width : ℚ) * scale - margin, (⌊(height : ℚ) * scale / 2⌋ : ℤ))
  else if position = "左下角" then (margin, (height : ℚ) * scale - margin)
  else if position = "下中" then
    (((⌊(width : ℚ) * scale / 2⌋ : ℤ) : ℚ), (height : ℚ) * scale - margin)
  else ((width : ℚ) * scale - margin, (height : ℚ) * scale - margin)

/-- `WatermarkApp.calculate_watermark_position(width, height, scale)` in
full: the anchor point plus the letterbox offset of the preview canvas
(Python float `//` is the floor of the exact quotient). -/
def calculate_watermark_position (position : String) (width height : ℕ)
    (scale : ℚ) (canvas_width canvas_height : ℕ) : ℚ × ℚ :=
  let xy := calculate_watermark_position_core position width height scale
  let x_offset : ℚ := (⌊((canvas_width : ℚ) - (width : ℚ) * scale) / 2⌋ : ℤ)
  let y_offset : ℚ := (⌊((canvas_height : ℚ) - (height : ℚ) * scale) / 2⌋ : ℤ)
  (xy.1 + x_offset, xy.2 + y_offset)

/-- One `draw.text` call recorded by the text-watermark renderer: the pixel
position passed to PIL, the RGB fill color and the alpha component of the
fill. -/
structure DrawOp where
  x : ℤ
  y : ℤ
  color : ℤ × ℤ × ℤ
  alpha : ℤ
deriving DecidableEq

/-- The position computation inside `WatermarkApp.add_text_watermark`:
`manual` positions are taken verbatim from `manual_x`/`manual_y` (with the
bottom-right default when the keys are absent), every other position goes
through `calculate_actual_position`. -/
def text_position (s : WatermarkSettings)
    (width height text_width text_height : ℤ) : ℤ × ℤ :=
  if s.position = "manual" then
    (s.manual_x.getD (width - text_width - 20),
     s.manual_y.getD (height - text_height - 20))
  else calculate_actual_position s.position width height text_width text_height

/-- `WatermarkApp.add_text_watermark(layer, width, height)`: the sequence of
`draw.text` calls it issues, in order (earlier operations are drawn beneath
later ones).  The text bounding box measured by the font collaborator is
passed in as `text_width`/`text_height`.  The fill alpha is
`int(255 * opacity / 100)`; the optional shadow is drawn first at offset
`(+2, +2)` in black with half that alpha (`opacity // 2`); the optional
stroke follows at the eight offsets `{-2,0,2}×{-2,0,2}` minus `(0,0)` in
black at full alpha; the main text is drawn last.  The `rotation` setting
is not consulted. -/
def add_text_watermark (s : WatermarkSettings)
    (width height text_width text_height : ℤ) : List DrawOp :=
  let xy := text_position s width height text_width text_height
  let x := xy.1
  let y := xy.2
  let opacity := pyIntDiv (255 * s.opacity) 100
  (if s.shadow_enabled then [⟨x + 2, y + 2, (0, 0, 0), opacity / 2⟩] else [])
    ++ (if s.stroke_enabled then
      [⟨x - 2, y - 2, (0, 0, 0), opacity⟩, ⟨x - 2, y, (0, 0, 0), opacity⟩,
       ⟨x - 2, y + 2, (0, 0, 0), opacity⟩, ⟨x, y - 2, (0, 0, 0), opacity⟩,
       ⟨x, y + 2, (0, 0, 0), opacity⟩, ⟨x + 2, y - 2, (0, 0, 0), opacity⟩,
       ⟨x + 2, y, (0, 0, 0), opacity⟩, ⟨x + 2, y + 2, (0, 0, 0), opacity⟩]
      else [])
    ++ [⟨x, y, s.font_color, opacity⟩]

/-- The opacity application inside `WatermarkApp.add_image_watermark`: when
`image_watermark_opacity < 100` every alpha value `p` of the (resized)
watermark image is replaced by `p * opacity // 100`; otherwise the channel
is left untouched. -/
def apply_image_opacity (opacity : ℤ) (alpha : List ℤ) : List ℤ :=
  if opacity < 100 then alpha.map (fun p => p * opacity / 100) else alpha

/-- The paste-origin computation inside `WatermarkApp.add_image_watermark`:
manual coordinates verbatim (bottom-right default when absent), anchors via
`calculate_actual_position`, then both coordinates clamped by
`max(0, min(v, bound))`. -/
def image_paste_origin (s : WatermarkSettings)
    (width height new_width new_height : ℤ) : ℤ × ℤ :=
  let xy :=
    if s.position = "manual" then
      (s.manual_x.getD (width - new_width - 20),
       s.manual_y.getD (height - new_height - 20))
    else calculate_actual_position s.position width height new_width new_height
  (max 0 (min xy.1 (width - new_width)),
   max 0 (min xy.2 (height - new_height)))

/-- `WatermarkApp.add_image_watermark(layer, width, height)`: returns the
single `layer.paste` call it issues, or `none` when no watermark image path
is set (the function returns immediately and the layer stays fully
transparent).  The watermark image decoded by the collaborator has size
`wm_width × wm_height`; `resized_alpha` is the alpha channel produced by
the LANCZOS resize to `int(wm_width*scale/100) × int(wm_height*scale/100)`.
The recorded paste carries the origin after clamping and the alpha channel
used as the paste mask. -/
def add_image_watermark (s : WatermarkSettings) (wm_width wm_height : ℕ)
    (resized_alpha : List ℤ) (width height : ℤ) :
    Option ((ℤ × ℤ) × List ℤ) :=
  match s.image_watermark_path with
  | none => none
  | some _ =>
    let new_width := pyIntDiv ((wm_width : ℤ) * s.image_watermark_scale) 100
    let new_height := pyIntDiv ((wm_height : ℤ) * s.image_watermark_scale) 100
    let alpha := apply_image_opacity s.image_watermark_opacity resized_alpha
    some (image_paste_origin s width height new_width new_height, alpha)

/-- Whether `add_image_watermark` raises: only when a watermark path is set
and the inner work (decode, resize, paste) fails — the `except` clause
re-raises.  With no path set it returns before any fallible work. -/
def image_watermark_raises (s : WatermarkSettings) (inner_fails : Bool) : Bool :=
  s.image_watermark_path.isSome && inner_fails

/-- Outcome of `WatermarkApp.add_watermark_to_image(input_path,
output_path)`: `true` (success) exactly when the base image decodes, the
watermark render does not raise, and the save succeeds; every exception is
caught and turned into `false`. -/
def add_watermark_to_image_ok (base_decode_ok render_raises save_ok : Bool) :
    Bool :=
  base_decode_ok && (!render_raises) && save_ok

/-- Source-over compositing of one layer pixel over one base pixel, the
per-pixel semantics of `Image.alpha_composite(image, watermark_layer)`:
one color channel plus alpha, each in `[0, 255]`, exact over `ℚ`. -/
def alpha_composite_pix (base layer : ℚ × ℚ) : ℚ × ℚ :=
  let sa := layer.2
  let da := base.2
  let outA := sa + da * (255 - sa) / 255
  let outC :=
    if outA = 0 then 0
    else (layer.1 * sa + base.1 * da * (255 - sa) / 255) / outA
  (outC, outA)

/-- Masked paste of one source channel value over one destination value,
the per-pixel semantics of `layer.paste(img, pos, mask)` with an alpha
mask value `m ∈ [0, 255]`. -/
def paste_pix (dst src m : ℚ) : ℚ := dst * (255 - m) / 255 + src * m / 255

/-- `os.path.splitext` restricted to plain filenames: split at the last
dot, unless every character before that dot is itself a dot (so names like
`.hidden` keep no extension). -/
def splitext (s : String) : String × String :=
  let cs := s.data
  match cs.reverse.findIdx? (fun c => c = '.') with
  | none => (s, "")
  | some k =>
    let sep := cs.length - 1 - k
    if (cs.take sep).any (fun c => c ≠ '.') then (⟨cs.take sep⟩, ⟨cs.drop sep⟩)
    else (s, "")

/-- `WatermarkApp.generate_output_filename(original_filename)`: stem from
`splitext`, extension forced to `.jpg` for JPEG output and `.png` for PNG
output, then assembled according to `naming_rule` (`"prefix"`, `"suffix"`,
anything else meaning keep-original). -/
def generate_output_filename (os : OutputSettings)
    (original_filename : String) : String :=
  let ne := splitext original_filename
  let name := ne.1
  let ext :=
    if os.format = "JPEG" then ".jpg"
    else if os.format = "PNG" then ".png"
    else ne.2
  if os.naming_rule = "prefix" then os.preStr ++ name ++ ext
  else if os.naming_rule = "suffix" then name ++ os.sufStr ++ ext
  else name ++ ext

/-- One entry of `self.images` as the batch loop sees it: its filename and
whether `add_watermark_to_image` succeeds on it (decode, render and save
all succeed). -/
structure BatchItem where
  name : String
  ok : Bool
deriving DecidableEq

/-- The counting loop of `WatermarkApp.batch_export`: processes the images
in order; a success increments `success_count` and writes the derived
output file, any failure increments `error_count` and moves on to the next
image.  Returns `(success_count, error_count, written output filenames)`. -/
def batch_export (os : OutputSettings) : List BatchItem → ℕ × ℕ × List String
  | [] => (0, 0, [])
  | item :: rest =>
    let r := batch_export os rest
    if item.ok then
      (r.1 + 1, r.2.1, generate_output_filename os item.name :: r.2.2)
    else (r.1, r.2.1 + 1, r.2.2)

/-- Modelled from the spec: nearest-integer rounding of `n / d` (half
rounds up) as used by the spec sentence `alpha = round(255 *
opacity_percent / 100)`; the repository code itself truncates instead. -/
def round_div (n d : ℤ) : ℤ := (2 * n + d) / (2 * d)

lemma floor_natCast_half (n : ℕ) : ⌊(n : ℚ) / 2⌋ = (n : ℤ) / 2 := by
  have h := Rat.floor_intCast_div_natCast (n : ℤ) 2
  simpa using h

lemma add_text_watermark_getLast (s : WatermarkSettings) (W H tw th : ℤ) :
    (add_text_watermark s W H tw th).getLast? =
      some ⟨(text_position s W H tw th).1, (text_position s W H tw th).2,
        s.font_color, pyIntDiv (255 * s.opacity) 100⟩ := by
  unfold add_text_watermark
  rw [List.getLast?_concat]

/-- C1: the export-path resolver maps each of the nine named anchors to the
closed-form coordinates of section 4.1 with margin 20 (integer floor
division for the centering terms), and at target `(1000, 800)`, content
`(100, 40)` the nine anchors evaluate to the literal expected values,
bottom-right giving `(880, 740)`. -/
theorem c1_export_resolver_anchor_formulas :
    (∀ W H cw ch : ℤ,
      calculate_actual_position "左上角" W H cw ch = (20, 20) ∧
      calculate_actual_position "上中" W H cw ch = ((W - cw) / 2, 20) ∧
      calculate_actual_position "右上角" W H cw ch = (W - cw - 20, 20) ∧
      calculate_actual_position "左中" W H cw ch = (20, (H - ch) / 2) ∧
      calculate_actual_position "居中" W H cw ch = ((W - cw) / 2, (H - ch) / 2) ∧
      calculate_actual_position "右中" W H cw ch = (W - cw - 20, (H - ch) / 2) ∧
      calculate_actual_position "左下角" W H cw ch = (20, H - ch - 20) ∧
      calculate_actual_position "下中" W H cw ch = ((W - cw) / 2, H - ch - 20) ∧
      calculate_actual_position "右下角" W H cw ch = (W - cw - 20, H - ch - 20)) ∧
    (calculate_actual_position "左上角" 1000 800 100 40 = (20, 20) ∧
     calculate_actual_position "上中" 1000 800 100 40 = (450, 20) ∧
     calculate_actual_position "右上角" 1000 800 100 40 = (880, 20) ∧
     calculate_actual_position "左中" 1000 800 100 40 = (20, 380) ∧
     calculate_actual_position "居中" 1000 800 100 40 = (450, 380) ∧
     calculate_actual_position "右中" 1000 800 100 40 = (880, 380) ∧
     calculate_actual_position "左下角" 1000 800 100 40 = (20, 740) ∧
     calculate_actual_position "下中" 1000 800 100 40 = (450, 740) ∧
     calculate_actual_position "右下角" 1000 800 100 40 = (880, 740)) := by
  constructor
  · exact fun W H cw ch => ⟨rfl, rfl, rfl, rfl, rfl, rfl, rfl, rfl, rfl⟩
  · decide

/-- C4 (code bug): the renderer never consults the `rotation` setting, so
any two text renders that differ only in `rotation_degrees` produce the
same operation sequence — rotation by 90 is pixel-identical to no
rotation, contradicting the required behaviour for angles that are not
multiples of 360. -/
theorem c4_rotation_ignored_by_renderer :
    ∀ (s : WatermarkSettings) (W H tw th r : ℤ),
      add_text_watermark { s with rotation := r } W H tw th =
        add_text_watermark { s with rotation := 0 } W H tw th :=
  fun _ _ _ _ _ _ => rfl

/-- C9: the derived output name is prefix+stem+ext under the prefix rule,
stem+suffix+ext under the suffix rule and stem+ext under keep-original,
with the extension forced to `.jpg` for JPEG output and `.png` for PNG
output regardless of the source extension; the three scenario examples
for source `photo.JPG` evaluate as stated. -/
theorem c9_output_filename_rules :
    (∀ p q f : String,
      generate_output_filename ⟨"prefix", p, q, "JPEG"⟩ f
        = p ++ (splitext f).1 ++ ".jpg" ∧
      generate_output_filename ⟨"prefix", p, q, "PNG"⟩ f
        = p ++ (splitext f).1 ++ ".png" ∧
      generate_output_filename ⟨"suffix", p, q, "JPEG"⟩ f
        = (splitext f).1 ++ q ++ ".jpg" ∧
      generate_output_filename ⟨"suffix", p, q, "PNG"⟩ f
        = (splitext f).1 ++ q ++ ".png" ∧
      generate_output_filename ⟨"original", p, q, "JPEG"⟩ f
        = (splitext f).1 ++ ".jpg" ∧
      generate_output_filename ⟨"original", p, q, "PNG"⟩ f
        = (splitext f).1 ++ ".png") ∧
    generate_output_filename ⟨"prefix", "wm_", "_done", "PNG"⟩ "photo.JPG"
      = "wm_photo.png" ∧
    generate_output_filename ⟨"suffix", "wm_", "_done", "JPEG"⟩ "photo.JPG"
      = "photo_done.jpg" ∧
    generate_output_filename ⟨"original", "wm_", "_done", "JPEG"⟩ "photo.JPG"
      = "photo.jpg" := by
  refine ⟨fun p q f => ⟨rfl, rfl, rfl, rfl, rfl, rfl⟩, ?_, ?_, ?_⟩ <;> decide

/-- C3 counterexample: a settings snapshot whose opacity is 150 (as a
template can supply) renders the main text with alpha
`int(255*150/100) = 382`; clamping the opacity to `[0, 100]` before use
would give alpha 255 — so no clamping happens before use. -/
theorem c3_counterexample_unclamped_opacity :
    (add_text_watermark
        ⟨"水印文字", (255, 255, 255), 150, "右下角", 0, false, false,
          none, 100, 80, none, none⟩ 1000 800 100 40).map (fun op => op.alpha)
      = [382] ∧
    pyIntDiv (255 * clampI 150 0 100) 100 = 255 ∧ (382 : ℤ) ≠ 255 := by
  decide

/-- C3 amended: opacity and image-watermark scale are used unclamped — the
text renderer always draws the main text with alpha
`int(255 * opacity / 100)` computed from the raw stored value (no snapshot
is ever rejected), and only for values already inside the declared ranges
(`[0,100]` for opacity, `[10,200]` for the image scale) does the value
used coincide with the clamped one. -/
theorem c3_amended_no_clamping_before_use :
    (∀ (s : WatermarkSettings) (W H tw th : ℤ),
      ((add_text_watermark s W H tw th).map (fun op => op.alpha)).getLast?
        = some (pyIntDiv (255 * s.opacity) 100)) ∧
    (∀ op : ℤ, 0 ≤ op → op ≤ 100 →
      pyIntDiv (255 * op) 100 = pyIntDiv (255 * clampI op 0 100) 100) ∧
    (∀ sc w : ℤ, 10 ≤ sc → sc ≤ 200 →
      pyIntDiv (w * sc) 100 = pyIntDiv (w * clampI sc 10 200) 100) := by
  refine ⟨fun s W H tw th => ?_, fun op h1 h2 => ?_, fun sc w h1 h2 => ?_⟩
  · rw [List.getLast?_map, add_text_watermark_getLast]
    rfl
  · have h : clampI op 0 100 = op := by
      unfold clampI
      omega
    rw [h]
  · have h : clampI sc 10 200 = sc := by
      unfold clampI
      omega
    rw [h]

/-- Witness for C3 amended: concrete evaluations at an in-range snapshot
(opacity 80, image scale 150). -/
theorem c3_amended_witness :
    ((add_text_watermark
        ⟨"水印文字", (255, 255, 255), 80, "右下角", 0, false, false,
          none, 100, 80, none, none⟩ 1000 800 100 40).map (fun op => op.alpha)).getLast?
      = some 204 ∧
    pyIntDiv (255 * 80) 100 = pyIntDiv (255 * clampI 80 0 100) 100 ∧
    pyIntDiv (640 * 150) 100 = pyIntDiv (640 * clampI 150 10 200) 100 :=
  ⟨c3_amended_no_clamping_before_use.1
      ⟨"水印文字", (255, 255, 255), 80, "右下角", 0, false, false,
        none, 100, 80, none, none⟩ 1000 800 100 40,
   c3_amended_no_clamping_before_use.2.1 80 (by decide) (by decide),
   c3_amended_no_clamping_before_use.2.2 150 640 (by decide) (by decide)⟩

/-- C6 counterexample: at `opacity_percent = 27` the code draws the main
text with alpha `int(255*27/100) = 68` (truncation), while nearest-integer
rounding of `255*27/100 = 68.85` gives 69 — the alpha is not
`round(255 * opacity_percent / 100)`. -/
theorem c6_counterexample_truncation_not_rounding :
    (add_text_watermark
        ⟨"水印文字", (255, 255, 255), 27, "右下角", 0, false, false,
          none, 100, 80, none, none⟩ 1000 800 100 40).map (fun op => op.alpha)
      = [68] ∧
    round_div (255 * 27) 100 = 69 ∧ (68 : ℤ) ≠ 69 := by
  decide

/-- C6 amended: the alpha used to draw the main text is
`int(255 * opacity_percent / 100)` — truncation toward zero, which for
the nonnegative opacities of the declared range is the floor, not
nearest-integer rounding — and when the shadow is enabled it is the first
operation drawn (hence beneath the main text, which is drawn last), at
offset `(+2, +2)`, in black, at `alpha // 2`. -/
theorem c6_amended_alpha_and_shadow :
    ∀ (s : WatermarkSettings) (W H tw th : ℤ),
      (add_text_watermark s W H tw th).getLast?
        = some ⟨(text_position s W H tw th).1, (text_position s W H tw th).2,
            s.font_color, pyIntDiv (255 * s.opacity) 100⟩ ∧
      (0 ≤ s.opacity →
        pyIntDiv (255 * s.opacity) 100 = 255 * s.opacity / 100) ∧
      (s.shadow_enabled = true →
        (add_text_watermark s W H tw th).head?
          = some ⟨(text_position s W H tw th).1 + 2,
              (text_position s W H tw th).2 + 2, (0, 0, 0),
              pyIntDiv (255 * s.opacity) 100 / 2⟩) := by
  intro s W H tw th
  refine ⟨add_text_watermark_getLast s W H tw th, fun h => ?_, fun h => ?_⟩
  · unfold pyIntDiv
    rw [if_pos (by positivity)]
  · unfold add_text_watermark
    rw [h]
    simp

/-- Witness for C6 amended: a concrete shadowed render at opacity 80; the
main text is drawn last at alpha 204 and the shadow first at alpha 102. -/
theorem c6_amended_witness :
    (add_text_watermark
        ⟨"水印文字", (255, 255, 255), 80, "右下角", 0, true, false,
          none, 100, 80, none, none⟩ 1000 800 100 40).getLast?
      = some ⟨880, 740, (255, 255, 255), 204⟩ ∧
    pyIntDiv (255 * 80) 100 = 255 * 80 / 100 ∧
    (add_text_watermark
        ⟨"水印文字", (255, 255, 255), 80, "右下角", 0, true, false,
          none, 100, 80, none, none⟩ 1000 800 100 40).head?
      = some ⟨882, 742, (0, 0, 0), 102⟩ := by
  obtain ⟨h1, h2, h3⟩ := c6_amended_alpha_and_shadow
    ⟨"水印文字", (255, 255, 255), 80, "右下角", 0, true, false,
      none, 100, 80, none, none⟩ 1000 800 100 40
  exact ⟨h1, h2 (by decide), h3 rfl⟩

/-- C7 counterexample: a text watermark rendered through the export path at
the bottom-right anchor on a 50×50 target with a 100-wide text box is drawn
at `x = 50 - 100 - 20 = -70`; the clamp `max(0, min(x, W-w))` would give 0,
so text rendered via the export path is NOT clamped. -/
theorem c7_counterexample_text_export_not_clamped :
    (add_text_watermark
        ⟨"水印文字", (255, 255, 255), 80, "右下角", 0, false, false,
          none, 100, 80, none, none⟩ 50 50 100 10).map (fun op => (op.x, op.y))
      = [(-70, 20)] ∧
    clampI (-70) 0 (50 - 100) = 0 ∧ ((-70 : ℤ)) ≠ 0 := by
  decide

/-- C7 amended: the image-watermark paste origin is always clamped to
`[0, W-w] × [0, H-h]` (when the watermark fits), including Manual
placement, which is clamped verbatim coordinates; text placement in the
export path is never clamped — both anchor-resolved and Manual text
positions are used exactly as `text_position` produces them. -/
theorem c7_amended_clamping_policy :
    (∀ (s : WatermarkSettings) (W H nw nh : ℤ), nw ≤ W → nh ≤ H →
      0 ≤ (image_paste_origin s W H nw nh).1 ∧
      (image_paste_origin s W H nw nh).1 ≤ W - nw ∧
      0 ≤ (image_paste_origin s W H nw nh).2 ∧
      (image_paste_origin s W H nw nh).2 ≤ H - nh) ∧
    (∀ (s : WatermarkSettings) (W H nw nh mx my : ℤ),
      s.position = "manual" → s.manual_x = some mx → s.manual_y = some my →
      image_paste_origin s W H nw nh
        = (clampI mx 0 (W - nw), clampI my 0 (H - nh))) ∧
    (∀ (s : WatermarkSettings) (W H tw th : ℤ),
      (add_text_watermark s W H tw th).getLast?
        = some ⟨(text_position s W H tw th).1, (text_position s W H tw th).2,
            s.font_color, pyIntDiv (255 * s.opacity) 100⟩) ∧
    (∀ (s : WatermarkSettings) (W H tw th mx my : ℤ),
      s.position = "manual" → s.manual_x = some mx → s.manual_y = some my →
      text_position s W H tw th = (mx, my)) := by
  refine ⟨fun s W H nw nh h1 h2 => ?_, fun s W H nw nh mx my hp hx hy => ?_,
    fun s W H tw th => add_text_watermark_getLast s W H tw th,
    fun s W H tw th mx my hp hx hy => ?_⟩
  · unfold image_paste_origin
    refine ⟨le_max_left 0 _, ?_, le_max_left 0 _, ?_⟩ <;> simp <;> omega
  · unfold image_paste_origin clampI
    rw [hp, hx, hy]
    simp
  · unfold text_position
    rw [hp, hx, hy]
    simp

/-- Witness for C7 amended: a Manual image placement at `(-30, 9000)` on a
1000×800 target with a 200×100 watermark is clamped to `(0, 700)`, while
the same Manual coordinates for a text watermark pass through unclamped. -/
theorem c7_amended_witness :
    (0 ≤ (image_paste_origin
        ⟨"水印文字", (255, 255, 255), 80, "manual", 0, false, false,
          some "wm.png", 100, 80, some (-30), some 9000⟩ 1000 800 200 100).1 ∧
      (image_paste_origin
        ⟨"水印文字", (255, 255, 255), 80, "manual", 0, false, false,
          some "wm.png", 100, 80, some (-30), some 9000⟩ 1000 800 200 100).1 ≤ 1000 - 200 ∧
      0 ≤ (image_paste_origin
        ⟨"水印文字", (255, 255, 255), 80, "manual", 0, false, false,
          some "wm.png", 100, 80, some (-30), some 9000⟩ 1000 800 200 100).2 ∧
      (image_paste_origin
        ⟨"水印文字", (255, 255, 255), 80, "manual", 0, false, false,
          some "wm.png", 100, 80, some (-30), some 9000⟩ 1000 800 200 100).2 ≤ 800 - 100) ∧
    image_paste_origin
        ⟨"水印文字", (255, 255, 255), 80, "manual", 0, false, false,
          some "wm.png", 100, 80, some (-30), some 9000⟩ 1000 800 200 100
      = (clampI (-30) 0 (1000 - 200), clampI 9000 0 (800 - 100)) ∧
    text_position
        ⟨"水印文字", (255, 255, 255), 80, "manual", 0, false, false,
          some "wm.png", 100, 80, some (-30), some 9000⟩ 1000 800 200 100
      = (-30, 9000) :=
  ⟨c7_amended_clamping_policy.1
      ⟨"水印文字", (255, 255, 255), 80, "manual", 0, false, false,
        some "wm.png", 100, 80, some (-30), some 9000⟩ 1000 800 200 100
      (by decide) (by decide),
   c7_amended_clamping_policy.2.1
      ⟨"水印文字", (255, 255, 255), 80, "manual", 0, false, false,
        some "wm.png", 100, 80, some (-30), some 9000⟩ 1000 800 200 100
      (-30) 9000 rfl rfl rfl,
   c7_amended_clamping_policy.2.2.2
      ⟨"水印文字", (255, 255, 255), 80, "manual", 0, false, false,
        some "wm.png", 100, 80, some (-30), some 9000⟩ 1000 800 200 100
      (-30) 9000 rfl rfl rfl⟩

lemma batch_export_spec (os : OutputSettings) (items : List BatchItem) :
    batch_export os items =
      ((items.filter (fun it => it.ok)).length,
       (items.filter (fun it => !it.ok)).length,
       (items.filter (fun it => it.ok)).map
         (fun it => generate_output_filename os it.name)) := by
  induction items with
  | nil => rfl
  | cons it rest ih =>
    cases h : it.ok <;> simp [batch_export, ih, h]

lemma length_filter_ok (items : List BatchItem) :
    (items.filter (fun it => it.ok)).length
      + (items.filter (fun it => !it.ok)).length = items.length := by
  induction items with
  | nil => rfl
  | cons it rest ih =>
    cases h : it.ok <;> simp [h] <;> omega

/-- C8: batch export isolates per-item failures — every item contributes to
exactly one of the two counters (their sum is the batch size), the success
counter equals the number of successfully processed images, exactly that
many output files are written (those of the successful items, in order),
and a 5-image batch whose third image is unreadable yields `(4, 1)` and
exactly the 4 output files of the other images. -/
theorem c8_batch_failure_isolation :
    (∀ (os : OutputSettings) (items : List BatchItem),
      (batch_export os items).1 + (batch_export os items).2.1 = items.length ∧
      (batch_export os items).1 = (items.filter (fun it => it.ok)).length ∧
      (batch_export os items).2.2
        = (items.filter (fun it => it.ok)).map
            (fun it => generate_output_filename os it.name)) ∧
    batch_export ⟨"original", "wm_", "_done", "JPEG"⟩
        [⟨"a.png", true⟩, ⟨"b.png", true⟩, ⟨"c.png", false⟩,
         ⟨"d.png", true⟩, ⟨"e.png", true⟩]
      = (4, 1, ["a.jpg", "b.jpg", "d.jpg", "e.jpg"]) ∧
    generate_output_filename ⟨"original", "wm_", "_done", "JPEG"⟩ "c.png"
      ∉ (batch_export ⟨"original", "wm_", "_done", "JPEG"⟩
          [⟨"a.png", true⟩, ⟨"b.png", true⟩, ⟨"c.png", false⟩,
           ⟨"d.png", true⟩, ⟨"e.png", true⟩]).2.2 := by
  refine ⟨fun os items => ?_, by decide, by decide⟩
  rw [batch_export_spec]
  exact ⟨length_filter_ok items, rfl, rfl⟩

lemma alpha_composite_transparent (dc c2 : ℚ) (da : ℕ) (h : 0 < da) :
    alpha_composite_pix (dc, (da : ℚ)) (c2, 0) = (dc, (da : ℚ)) := by
  have hda : ((da : ℚ)) ≠ 0 := Nat.cast_ne_zero.mpr h.ne'
  unfold alpha_composite_pix
  have h1 : (0 : ℚ) + (da : ℚ) * ((255 : ℚ) - 0) / 255 = (da : ℚ) := by
    norm_num
  simp only [h1]
  rw [if_neg hda]
  refine Prod.ext ?_ rfl
  show (c2 * 0 + dc * (da : ℚ) * ((255 : ℚ) - 0) / 255) / (da : ℚ) = dc
  field_simp

/-- C5: image-watermark opacity composes with pre-existing transparency —
`opacity_percent = 100` leaves the alpha channel untouched,
`opacity_percent = 0` zeroes every alpha value (and compositing a
zero-alpha layer pixel over any base pixel returns the base pixel, as does
pasting with a zero mask), and for `opacity_percent < 100` every alpha
value `p` is replaced pointwise by `p * opacity_percent // 100`, never by
a constant. -/
theorem c5_opacity_composes_with_alpha :
    (∀ a : List ℤ, apply_image_opacity 100 a = a) ∧
    (∀ a : List ℤ, apply_image_opacity 0 a = a.map (fun _ => 0)) ∧
    (∀ (op : ℤ) (a : List ℤ), op < 100 →
      apply_image_opacity op a = a.map (fun p => p * op / 100)) ∧
    (∀ (dc c2 : ℚ) (da : ℕ), 0 < da →
      alpha_composite_pix (dc, (da : ℚ)) (c2, 0) = (dc, (da : ℚ))) ∧
    (∀ dst src : ℚ, paste_pix dst src 0 = dst) := by
  refine ⟨fun a => ?_, fun a => ?_, fun op a h => ?_,
    fun dc c2 da h => alpha_composite_transparent dc c2 da h,
    fun dst src => ?_⟩
  · simp [apply_image_opacity]
  · simp [apply_image_opacity]
  · rw [apply_image_opacity, if_pos h]
  · unfold paste_pix
    norm_num

/-- Witness for C5: opacity 80 multiplies the alpha values 0, 128, 255
pointwise into 0, 102, 204, and a transparent layer pixel composed over an
opaque base pixel leaves it unchanged. -/
theorem c5_witness :
    apply_image_opacity 80 [0, 128, 255] = [0, 102, 204] ∧
    alpha_composite_pix ((10 : ℚ), ((255 : ℕ) : ℚ)) ((7 : ℚ), 0)
      = ((10 : ℚ), ((255 : ℕ) : ℚ)) :=
  ⟨c5_opacity_composes_with_alpha.2.2.1 80 [0, 128, 255] (by decide),
   c5_opacity_composes_with_alpha.2.2.2.1 10 7 255 (by decide)⟩

/-- C10: when the watermark variant is Image but no source path is set,
`add_image_watermark` issues no paste at all (the layer stays fully
transparent), it cannot raise, exporting that image still succeeds when
the base decode and save succeed, and compositing the untouched
transparent layer over any base pixel with positive alpha returns the base
pixel — the output is the format-converted base image. -/
theorem c10_no_path_draws_nothing_and_succeeds :
    ∀ (s : WatermarkSettings) (wm_w wm_h : ℕ) (ra : List ℤ) (W H : ℤ)
      (inner : Bool) (dc c2 : ℚ) (da : ℕ),
      s.image_watermark_path = none →
      add_image_watermark s wm_w wm_h ra W H = none ∧
      image_watermark_raises s inner = false ∧
      add_watermark_to_image_ok true (image_watermark_raises s inner) true
        = true ∧
      (0 < da →
        alpha_composite_pix (dc, (da : ℚ)) (c2, 0) = (dc, (da : ℚ))) := by
  intro s wm_w wm_h ra W H inner dc c2 da hp
  refine ⟨?_, ?_, ?_, fun h => alpha_composite_transparent dc c2 da h⟩
  · unfold add_image_watermark
    rw [hp]
  · unfold image_watermark_raises
    rw [hp]
    rfl
  · unfold add_watermark_to_image_ok image_watermark_raises
    rw [hp]
    rfl

/-- Witness for C10: a concrete snapshot with no watermark path set on a
1000×800 target. -/
theorem c10_witness :
    add_image_watermark
        ⟨"水印文字", (255, 255, 255), 80, "右下角", 0, false, false,
          none, 100, 80, none, none⟩ 64 64 [255, 128] 1000 800 = none ∧
    image_watermark_raises
        ⟨"水印文字", (255, 255, 255), 80, "右下角", 0, false, false,
          none, 100, 80, none, none⟩ true = false ∧
    add_watermark_to_image_ok true
        (image_watermark_raises
          ⟨"水印文字", (255, 255, 255), 80, "右下角", 0, false, false,
            none, 100, 80, none, none⟩ true) true = true ∧
    ((0 : ℕ) < 255 →
      alpha_composite_pix ((3 : ℚ), ((255 : ℕ) : ℚ)) ((9 : ℚ), 0)
        = ((3 : ℚ), ((255 : ℕ) : ℚ))) :=
  c10_no_path_draws_nothing_and_succeeds
    ⟨"水印文字", (255, 255, 255), 80, "右下角", 0, false, false,
      none, 100, 80, none, none⟩ 64 64 [255, 128] 1000 800 true 3 9 255 rfl

/-- C2 counterexample: for the bottom-right anchor with target
`(1000, 800)`, content `(100, 40)` and scale 1, the preview resolver
returns `(980, 780)` while the full-resolution export resolver scaled by 1
gives `(880, 740)` — the preview coordinate does not equal the scaled
export coordinate, so the two paths do not share one resolver. -/
theorem c2_counterexample_two_resolvers :
    calculate_watermark_position_core "右下角" 1000 800 1 ≠
      (1 * ((calculate_actual_position "右下角" 1000 800 100 40).1 : ℚ),
       1 * ((calculate_actual_position "右下角" 1000 800 100 40).2 : ℚ)) := by
  have h : calculate_actual_position "右下角" 1000 800 100 40 = (880, 740) := by
    decide
  rw [h]
  unfold calculate_watermark_position_core
  simp only [String.reduceEq, if_false, reduceIte]
  intro hc
  rw [Prod.mk.injEq] at hc
  have h1 := hc.1
  norm_num at h1

/-- C2 amended: preview and export use two distinct resolvers.  The
preview resolver ignores content size: at scale 1 it coincides, for every
position string (the nine anchors, and `manual` which both functions send
to the bottom-right default branch), with the export resolver evaluated at
content size `(0, 0)`; and for the four corner anchors its output at any
scale `s` equals `s` times that zero-content export coordinate.  Hence the
preview coordinate equals the scaled export coordinate only for zero
content size, not in general. -/
theorem c2_amended_preview_ignores_content_size :
    (∀ W H : ℕ,
      calculate_watermark_position_core "左上角" W H 1
        = i2 (calculate_actual_position "左上角" W H 0 0) ∧
      calculate_watermark_position_core "上中" W H 1
        = i2 (calculate_actual_position "上中" W H 0 0) ∧
      calculate_watermark_position_core "右上角" W H 1
        = i2 (calculate_actual_position "右上角" W H 0 0) ∧
      calculate_watermark_position_core "左中" W H 1
        = i2 (calculate_actual_position "左中" W H 0 0) ∧
      calculate_watermark_position_core "居中" W H 1
        = i2 (calculate_actual_position "居中" W H 0 0) ∧
      calculate_watermark_position_core "右中" W H 1
        = i2 (calculate_actual_position "右中" W H 0 0) ∧
      calculate_watermark_position_core "左下角" W H 1
        = i2 (calculate_actual_position "左下角" W H 0 0) ∧
      calculate_watermark_position_core "下中" W H 1
        = i2 (calculate_actual_position "下中" W H 0 0) ∧
      calculate_watermark_position_core "右下角" W H 1
        = i2 (calculate_actual_position "右下角" W H 0 0) ∧
      calculate_watermark_position_core "manual" W H 1
        = i2 (calculate_actual_position "manual" W H 0 0)) ∧
    (∀ (W H : ℕ) (s : ℚ),
      calculate_watermark_position_core "左上角" W H s
        = (s * ((calculate_actual_position "左上角" W H 0 0).1 : ℚ),
           s * ((calculate_actual_position "左上角" W H 0 0).2 : ℚ)) ∧
      calculate_watermark_position_core "右上角" W H s
        = (s * ((calculate_actual_position "右上角" W H 0 0).1 : ℚ),
           s * ((calculate_actual_position "右上角" W H 0 0).2 : ℚ)) ∧
      calculate_watermark_position_core "左下角" W H s
        = (s * ((calculate_actual_position "左下角" W H 0 0).1 : ℚ),
           s * ((calculate_actual_position "左下角" W H 0 0).2 : ℚ)) ∧
      calculate_watermark_position_core "右下角" W H s
        = (s * ((calculate_actual_position "右下角" W H 0 0).1 : ℚ),
           s * ((calculate_actual_position "右下角" W H 0 0).2 : ℚ))) := by
  constructor
  · intro W H
    refine ⟨?_, ?_, ?_, ?_, ?_, ?_, ?_, ?_, ?_, ?_⟩ <;>
      · unfold calculate_watermark_position_core calculate_actual_position i2
        simp only [String.reduceEq, if_false, if_true, reduceIte]
        norm_num [floor_natCast_half]
  · intro W H s
    refine ⟨?_, ?_, ?_, ?_⟩ <;>
      · unfold calculate_watermark_position_core calculate_actual_position
        simp only [String.reduceEq, if_false, if_true, reduceIte]
        rw [Prod.mk.injEq]
        constructor <;> push_cast <;> ring
